import Mathlib

/-!
Verification of the legacy temporal types of `src/common/backend/utils/adt/nabstime.cpp`:
AbsoluteTime, RelativeTime and TimeInterval, their comparison semantics, the
overflow-checked arithmetic relating them, the binary codec and the bracketed
interval-literal parser.  Machine `int32` values are embedded as `Int` together
with `wrap32` marking the places where the C code relies on 32-bit wraparound;
the external calendar bridge and date/time text scanner are passed in as
explicit function parameters.
-/

/-- Modelled from the spec: the reserved sentinel codes of `nabstime.h` are not
part of the sources.  The spec describes AbsoluteTime as signed 32-bit seconds
with three reserved sentinels, `INVALID` sorting above every other code, and
`NOSTART` the minus-infinity code; we reserve the topmost two codes and the
minimum code, so that every value strictly between `NOSTART_ABSTIME` and
`NOEND_ABSTIME` is a real measurement. -/
def INVALID_ABSTIME : Int := 2147483647

/-- Modelled from the spec: the plus-infinity sentinel of AbsoluteTime. -/
def NOEND_ABSTIME : Int := 2147483646

/-- Modelled from the spec: the minus-infinity sentinel of AbsoluteTime. -/
def NOSTART_ABSTIME : Int := -2147483648

/-- Modelled from the spec: the RelativeTime invalid sentinel equals the
minimum representable 32-bit integer. -/
def INVALID_RELTIME : Int := -2147483648

/-- Modelled from the spec: `AbsoluteTimeIsReal` of `nabstime.h` — a real
(non-sentinel) point in time lies strictly between the two infinity codes. -/
abbrev AbsoluteTimeIsReal (t : Int) : Prop := NOSTART_ABSTIME < t ∧ t < NOEND_ABSTIME

/-- Modelled from the spec: `RelativeTimeIsValid` of `nabstime.h` — any value
other than the invalid sentinel. -/
abbrev RelativeTimeIsValid (t : Int) : Prop := t ≠ INVALID_RELTIME

/-- `T_INTERVAL_INVAL` : the stored tinterval represents no valid range. -/
def T_INTERVAL_INVAL : Int := 0

/-- `T_INTERVAL_VALID` : the stored tinterval represents a valid range. -/
def T_INTERVAL_VALID : Int := 1

/-- The range of a signed 32-bit machine integer, the representation type of
AbsoluteTime and RelativeTime. -/
abbrev Int32Range (z : Int) : Prop := -2147483648 ≤ z ∧ z < 2147483648

/-- Two's-complement wraparound of signed 32-bit arithmetic: the unique value
congruent to `z` modulo `2^32` lying in the `int32` range. -/
def wrap32 (z : Int) : Int := (z + 2147483648) % 4294967296 - 2147483648

theorem wrap32_eq_self (z : Int) (h1 : -2147483648 ≤ z) (h2 : z < 2147483648) :
    wrap32 z = z := by
  unfold wrap32
  omega

/-- `abstime_cmp_internal` : three-way comparison of two AbsoluteTime values.
All INVALIDs compare equal and larger than any non-INVALID; otherwise ordinary
signed comparison. -/
def abstime_cmp_internal (a b : Int) : Int :=
  if a = INVALID_ABSTIME then
    if b = INVALID_ABSTIME then 0 else 1
  else if b = INVALID_ABSTIME then -1
  else if a > b then 1
  else if a = b then 0
  else -1

/-- `reltime_cmp_internal` : three-way comparison of two RelativeTime values,
with the same sentinel policy as `abstime_cmp_internal`. -/
def reltime_cmp_internal (a b : Int) : Int :=
  if a = INVALID_RELTIME then
    if b = INVALID_RELTIME then 0 else 1
  else if b = INVALID_RELTIME then -1
  else if a > b then 1
  else if a = b then 0
  else -1

/-- `ABSTIMEMIN` : the macro `abstimele(t1,t2) ? t1 : t2`, the smaller endpoint
under the sentinel-aware ordering. -/
def ABSTIMEMIN (t1 t2 : Int) : Int :=
  if abstime_cmp_internal t1 t2 ≤ 0 then t1 else t2

/-- `ABSTIMEMAX` : the macro `abstimelt(t1,t2) ? t2 : t1`, the larger endpoint
under the sentinel-aware ordering. -/
def ABSTIMEMAX (t1 t2 : Int) : Int :=
  if abstime_cmp_internal t1 t2 < 0 then t2 else t1

/-- `TimeIntervalData` : status word plus the two endpoint fields `data[0]`
and `data[1]`. -/
structure TimeIntervalData where
  status : Int
  data0 : Int
  data1 : Int
deriving DecidableEq

/-- The interval construction performed by `tintervalin` after parsing: status
is INVAL iff either endpoint is the INVALID sentinel, and both data fields are
always stored as the sentinel-aware minimum and maximum. -/
def tintervalin_mk (t1 t2 : Int) : TimeIntervalData :=
  { status := if t1 = INVALID_ABSTIME ∨ t2 = INVALID_ABSTIME
              then T_INTERVAL_INVAL else T_INTERVAL_VALID
    data0 := ABSTIMEMIN t1 t2
    data1 := ABSTIMEMAX t1 t2 }

/-- `mktinterval` : builds a tinterval from two endpoints.  The C function
allocates the record with `palloc` and stores the endpoint fields only in the
VALID branch; `g0` and `g1` stand for whatever the freshly allocated memory
happened to contain, which is what the INVAL branch leaves in place. -/
def mktinterval (g0 g1 t1 t2 : Int) : TimeIntervalData :=
  if t1 = INVALID_ABSTIME ∨ t2 = INVALID_ABSTIME then
    { status := T_INTERVAL_INVAL, data0 := g0, data1 := g1 }
  else
    { status := T_INTERVAL_VALID, data0 := ABSTIMEMIN t1 t2, data1 := ABSTIMEMAX t1 t2 }

/-- `timepl` : AbsoluteTime plus RelativeTime, guarded so the exact sum never
crosses the infinity sentinels; every other case yields INVALID.  For `int32`
arguments none of the guard subtractions nor the guarded sum can overflow, so
plain integer arithmetic coincides with the C `int32` arithmetic here. -/
def timepl (t1 t2 : Int) : Int :=
  if AbsoluteTimeIsReal t1 ∧ RelativeTimeIsValid t2 ∧
     ((t2 > 0 ∧ t1 < NOEND_ABSTIME - t2) ∨ (t2 ≤ 0 ∧ t1 > NOSTART_ABSTIME - t2))
  then t1 + t2
  else INVALID_ABSTIME

/-- `timemi` : AbsoluteTime minus RelativeTime, the mirror image of `timepl`
with the same overflow guard shape and the same failure value. -/
def timemi (t1 t2 : Int) : Int :=
  if AbsoluteTimeIsReal t1 ∧ RelativeTimeIsValid t2 ∧
     ((t2 > 0 ∧ t1 > NOSTART_ABSTIME + t2) ∨ (t2 ≤ 0 ∧ t1 < NOEND_ABSTIME + t2))
  then t1 - t2
  else INVALID_ABSTIME

/-- An interval counts as invalid for comparison purposes when its status is
INVAL or either stored endpoint is the INVALID sentinel (the `a_invalid` and
`b_invalid` flags of `tinterval_cmp_internal`). -/
abbrev tintervalInvalid (a : TimeIntervalData) : Prop :=
  a.status = T_INTERVAL_INVAL ∨ a.data0 = INVALID_ABSTIME ∨ a.data1 = INVALID_ABSTIME

/-- `tinterval_cmp_internal` : three-way comparison of two tintervals.  All
invalid intervals compare equal and larger than any non-invalid one; otherwise
only the lengths `data[1] - data[0]` are compared, computed in 32-bit
arithmetic that silently wraps (a documented legacy quirk kept as-is). -/
def tinterval_cmp_internal (a b : TimeIntervalData) : Int :=
  if tintervalInvalid a then
    if tintervalInvalid b then 0 else 1
  else if tintervalInvalid b then -1
  else
    let aLen := wrap32 (a.data1 - a.data0)
    let bLen := wrap32 (b.data1 - b.data0)
    if aLen > bLen then 1
    else if aLen = bLen then 0
    else -1

/-- `tintervalsame` : endpoint-wise identity of two tintervals; false whenever
either status is INVAL, otherwise both endpoint pairs must be equal under the
sentinel-aware abstime equality. -/
def tintervalsame (i1 i2 : TimeIntervalData) : Bool :=
  if i1.status = T_INTERVAL_INVAL ∨ i2.status = T_INTERVAL_INVAL then false
  else decide (abstime_cmp_internal i1.data0 i2.data0 = 0) &&
       decide (abstime_cmp_internal i1.data1 i2.data1 = 0)

/-- `tintervaleq` : duration-based equality, derived from the three-way
comparator. -/
def tintervaleq (i1 i2 : TimeIntervalData) : Bool :=
  decide (tinterval_cmp_internal i1 i2 = 0)

/-- The status `tintervalrecv` recomputes from the two transmitted endpoints:
INVAL iff either endpoint is the INVALID sentinel. -/
def tintervalExpectedStatus (d0 d1 : Int) : Int :=
  if d0 = INVALID_ABSTIME ∨ d1 = INVALID_ABSTIME then T_INTERVAL_INVAL
  else T_INTERVAL_VALID

/-- `tintervalrecv` : binary decode of a tinterval from the three transmitted
32-bit integers (status, data[0], data[1]); reports a decode error (`none`)
when the transmitted status disagrees with the recomputed one. -/
def tintervalrecv (status d0 d1 : Int) : Option TimeIntervalData :=
  if tintervalExpectedStatus d0 d1 ≠ status then none
  else some { status := status, data0 := d0, data1 := d1 }

/-- Modelled from the spec: the higher-precision duration type (`Interval` of
the host timestamp module, not part of the sources) carries an independent
microsecond total, day count and month count, each of wider range than
RelativeTime. -/
structure PgInterval where
  time : Int
  day : Int
  month : Int
deriving DecidableEq

/-- The flattening numerator of `interval_reltime` in microseconds, exactly as
the 64-bit build computes it: years and months split off the month field by
truncating division, scaled to microseconds and then to a day count times
86400, plus the raw microsecond field.  The C computation is 64-bit; its
overflow is undefined behaviour, so exact integer arithmetic embeds it. -/
def intervalSpanUsecs (iv : PgInterval) : Int :=
  (365250000 * (iv.month.tdiv 12) + 30000000 * (iv.month.tmod 12)
    + 1000000 * iv.day) * 86400 + iv.time

/-- `interval_reltime` : flatten a higher-precision Interval into RelativeTime
seconds; values outside the signed 32-bit range silently become the INVALID
sentinel. -/
def interval_reltime (iv : PgInterval) : Int :=
  let span := (intervalSpanUsecs iv).tdiv 1000000
  if span < -2147483648 ∨ span > 2147483647 then INVALID_RELTIME else span

/-- `reltime_interval` : decompose RelativeTime into an Interval by truncating
division with 1 year = 31557600 s and 1 month = 2592000 s, remainder kept as
raw microseconds; only the INVALID sentinel is rejected (`none` embeds the
reported error). -/
def reltime_interval (r : Int) : Option PgInterval :=
  if r = INVALID_RELTIME then none
  else
    let year := r.tdiv 31557600
    let r1 := r - year * 31557600
    let month := r1.tdiv 2592000
    let r2 := r1 - month * 2592000
    let day := r2.tdiv 86400
    let r3 := r2 - day * 86400
    some { time := r3 * 1000000, day := day, month := 12 * year + month }

/-- `abstimesend` : the binary wire form of an AbsoluteTime, four big-endian
bytes of the 32-bit two's-complement pattern (the fixed-width integer wire
primitive of the host protocol). -/
def abstimesend (t : Int) : List Nat :=
  let u := (t % 4294967296).toNat
  [u / 16777216 % 256, u / 65536 % 256, u / 256 % 256, u % 256]

/-- `abstimerecv` : binary decode of an AbsoluteTime from four big-endian
bytes, reassembling the 32-bit pattern and reading it as a signed value. -/
def abstimerecv (bs : List Nat) : Option Int :=
  match bs with
  | [b3, b2, b1, b0] =>
    let u := b3 % 256 * 16777216 + b2 % 256 * 65536 + b1 % 256 * 256 + b0 % 256
    some (if u < 2147483648 then (u : Int) else (u : Int) - 4294967296)
  | _ => none

/-- The calendar-field record `pg_tm` as used by `tm2abstime`: full year,
1-based month. -/
structure PgTm where
  tm_year : Int
  tm_mon : Int
  tm_mday : Int
  tm_hour : Int
  tm_min : Int
  tm_sec : Int
deriving DecidableEq

/-- `tm2abstime` : convert a calendar record plus timezone offset to abstime,
validating the 1901–2038 range and the day-number bounds, with the legacy
"slop" check that catches the 32-bit wraparound of the final second count
(hence `wrap32` around the arithmetic the C code performs in `int32`).  The
Julian-day conversion `date2j` is an external collaborator passed in as a
function; `2440588` is the Julian day of the Unix epoch. -/
def tm2abstime (date2j : Int → Int → Int → Int) (tm : PgTm) (tz : Int) : Int :=
  if tm.tm_year < 1901 ∨ tm.tm_year > 2038 ∨ tm.tm_mon < 1 ∨ tm.tm_mon > 12 ∨
     tm.tm_mday < 1 ∨ tm.tm_mday > 31 ∨ tm.tm_hour < 0 ∨ tm.tm_hour > 24 ∨
     (tm.tm_hour = 24 ∧ (tm.tm_min > 0 ∨ tm.tm_sec > 0)) ∨
     tm.tm_min < 0 ∨ tm.tm_min > 59 ∨ tm.tm_sec < 0 ∨ tm.tm_sec > 60
  then INVALID_ABSTIME
  else
    let day := date2j tm.tm_year tm.tm_mon tm.tm_mday - 2440588
    if day < -24856 ∨ day > 24854 then INVALID_ABSTIME
    else
      let sec := wrap32 (wrap32 (tm.tm_sec + tz) +
        wrap32 (wrap32 (tm.tm_min + wrap32 (wrap32 (day * 24 + tm.tm_hour) * 60)) * 60))
      if (day ≥ 24854 - 10 ∧ sec < 0) ∨ (day ≤ -24856 + 10 ∧ sec > 0) then INVALID_ABSTIME
      else if ¬ AbsoluteTimeIsReal sec then INVALID_ABSTIME
      else sec

/-- Modelled from the spec: the outcome of the external date/time text scanner
(`ParseDateTime` plus `DecodeDateTime`) consumed by `abstimein` — either a
concrete calendar date with timezone offset, one of the reserved keyword
classes, or a scan failure. -/
inductive AbstimeScan where
  | date (tm : PgTm) (tz : Int)
  | epoch
  | late
  | early
  | invalid
  | err
deriving DecidableEq

/-- `abstimein` : text decode of an AbsoluteTime.  The external scanner
classifies the string; a concrete date goes through `tm2abstime`, the keyword
classes map to the epoch value and the three sentinels, and a scan failure or
unexpected classification is a decode error (`none`). -/
def abstimein (date2j : Int → Int → Int → Int) (scan : String → AbstimeScan)
    (s : String) : Option Int :=
  match scan s with
  | .date tm tz => some (tm2abstime date2j tm tz)
  | .epoch => some 0
  | .late => some NOEND_ABSTIME
  | .early => some NOSTART_ABSTIME
  | .invalid => some INVALID_ABSTIME
  | .err => none

/-- `abstimeout` : text encode of an AbsoluteTime.  Modelled from the spec:
the sentinel literals and the calendar renderer (`abstime2tm` plus
`EncodeDateTime`, timezone- and datestyle-dependent) are external; the
renderer is passed in as `render`. -/
def abstimeout (render : Int → String) (t : Int) : String :=
  if t = INVALID_ABSTIME then "invalid"
  else if t = NOEND_ABSTIME then "infinity"
  else if t = NOSTART_ABSTIME then "-infinity"
  else render t

/-- The external scanner recovers `x` from the string `s`: it classifies `s`
as a concrete date whose calendar fields convert back to `x`.  This is the
bit-exactness assumption the round-trip property places on the external
scanner and calendar bridge. -/
abbrev ScanRecovers (date2j : Int → Int → Int → Int) (scan : String → AbstimeScan)
    (s : String) (x : Int) : Prop :=
  match scan s with
  | .date tm tz => tm2abstime date2j tm tz = x
  | _ => False

/-- Prefix test on character lists, the `strncmp` of the parser. -/
def startsWithChars : List Char → List Char → Bool
  | [], _ => true
  | _ :: _, [] => false
  | a :: as, b :: bs => a = b && startsWithChars as bs

/-- One scanning state of `parsetinterval`: skip blanks; on the expected
character consume it and continue, on any other character or on end of input
fail (`goto bogus`). -/
def skipTo (target : Char) : List Char → Option (List Char)
  | [] => none
  | c :: rest =>
    if c = ' ' then skipTo target rest
    else if c = target then some rest
    else none

/-- Scan a quoted segment of `parsetinterval`: the characters before the next
`"` together with the input following that quote; reaching end of input before
the quote fails. -/
def scanToQuote : List Char → Option (List Char × List Char)
  | [] => none
  | c :: rest =>
    if c = '"' then some ([], rest)
    else match scanToQuote rest with
      | none => none
      | some (seg, r) => some (c :: seg, r)

/-- `parsetinterval` : the bracketed interval-literal grammar
`[ "<abstime>" "<abstime>" ]`.  The embedded abstime text decoder is passed in
as `absin` (in the C code a recursive call to `abstimein`, whose failures
abort).  The fixed literal `Undefined Range` found where the first quoted
segment is expected is handled like a syntax error (`goto bogus`), exactly as
the source does. -/
def parsetinterval (absin : List Char → Option Int) (s : List Char) :
    Option (Int × Int) :=
  match skipTo '[' s with
  | none => none
  | some r1 =>
    match skipTo '"' r1 with
    | none => none
    | some r2 =>
      if startsWithChars ("Undefined Range".toList) r2 then none
      else match scanToQuote r2 with
        | none => none
        | some (seg1, r3) =>
          match absin seg1 with
          | none => none
          | some t1 =>
            match skipTo '"' r3 with
            | none => none
            | some r4 =>
              match scanToQuote r4 with
              | none => none
              | some (seg2, r5) =>
                match absin seg2 with
                | none => none
                | some t2 =>
                  match skipTo ']' r5 with
                  | none => none
                  | some r6 => if r6 = [] then some (t1, t2) else none

/-- `tintervalin` : text decode of a tinterval — parse the two endpoints, then
build the canonicalized interval. -/
def tintervalin (absin : List Char → Option Int) (s : List Char) :
    Option TimeIntervalData :=
  match parsetinterval absin s with
  | none => none
  | some (t1, t2) => some (tintervalin_mk t1 t2)

/-- Three-way sign of ordinary signed-integer comparison, used to state what
the comparators return on non-sentinel operands. -/
def threeCmp (x y : Int) : Int :=
  if x > y then 1 else if x = y then 0 else -1

/-- Claim C5: for every pair of AbsoluteTime values and every pair of
RelativeTime values, the internal three-way comparator returns 0 when both
operands are the INVALID sentinel, a positive value when only the first is
INVALID, a negative value when only the second is INVALID, and otherwise the
sign of ordinary signed-integer comparison (the NOSTART and NOEND infinity
sentinels are compared as ordinary integers). -/
theorem cmp_internal_sentinel_policy (a b : Int) :
    (a = INVALID_ABSTIME → b = INVALID_ABSTIME → abstime_cmp_internal a b = 0) ∧
    (a = INVALID_ABSTIME → b ≠ INVALID_ABSTIME → 0 < abstime_cmp_internal a b) ∧
    (a ≠ INVALID_ABSTIME → b = INVALID_ABSTIME → abstime_cmp_internal a b < 0) ∧
    (a ≠ INVALID_ABSTIME → b ≠ INVALID_ABSTIME →
      abstime_cmp_internal a b = threeCmp a b) ∧
    (a = INVALID_RELTIME → b = INVALID_RELTIME → reltime_cmp_internal a b = 0) ∧
    (a = INVALID_RELTIME → b ≠ INVALID_RELTIME → 0 < reltime_cmp_internal a b) ∧
    (a ≠ INVALID_RELTIME → b = INVALID_RELTIME → reltime_cmp_internal a b < 0) ∧
    (a ≠ INVALID_RELTIME → b ≠ INVALID_RELTIME →
      reltime_cmp_internal a b = threeCmp a b) := by
  unfold abstime_cmp_internal reltime_cmp_internal threeCmp
  refine ⟨fun h1 h2 => ?_, fun h1 h2 => ?_, fun h1 h2 => ?_, fun h1 h2 => ?_,
    fun h1 h2 => ?_, fun h1 h2 => ?_, fun h1 h2 => ?_, fun h1 h2 => ?_⟩ <;>
    split_ifs <;> omega

theorem cmp_internal_sentinel_policy_witness :
    abstime_cmp_internal INVALID_ABSTIME INVALID_ABSTIME = 0 ∧
    0 < abstime_cmp_internal INVALID_ABSTIME 7 ∧
    abstime_cmp_internal 7 INVALID_ABSTIME < 0 ∧
    abstime_cmp_internal NOEND_ABSTIME NOSTART_ABSTIME = 1 ∧
    reltime_cmp_internal INVALID_RELTIME INVALID_RELTIME = 0 ∧
    0 < reltime_cmp_internal INVALID_RELTIME 5 ∧
    reltime_cmp_internal 5 INVALID_RELTIME < 0 ∧
    reltime_cmp_internal (-3) 5 = -1 := by
  refine ⟨(cmp_internal_sentinel_policy INVALID_ABSTIME INVALID_ABSTIME).1 rfl rfl,
    (cmp_internal_sentinel_policy INVALID_ABSTIME 7).2.1 rfl (by decide),
    (cmp_internal_sentinel_policy 7 INVALID_ABSTIME).2.2.1 (by decide) rfl,
    ((cmp_internal_sentinel_policy NOEND_ABSTIME NOSTART_ABSTIME).2.2.2.1
      (by decide) (by decide)).trans (by decide),
    (cmp_internal_sentinel_policy INVALID_RELTIME INVALID_RELTIME).2.2.2.2.1 rfl rfl,
    (cmp_internal_sentinel_policy INVALID_RELTIME 5).2.2.2.2.2.1 rfl (by decide),
    (cmp_internal_sentinel_policy 5 INVALID_RELTIME).2.2.2.2.2.2.1 (by decide) rfl,
    ((cmp_internal_sentinel_policy (-3) 5).2.2.2.2.2.2.2
      (by decide) (by decide)).trans (by decide)⟩

/-- Claim C2 as stated is false: in the INVAL branch `mktinterval` stores only
the status and never writes the endpoint fields, so at input (INVALID, 0) with
allocation residue (42, 43) the stored first endpoint is 42, not the
sentinel-aware minimum 0. -/
theorem mktinterval_invalid_endpoints_cex :
    (mktinterval 42 43 INVALID_ABSTIME 0).data0 = 42 ∧
    ABSTIMEMIN INVALID_ABSTIME 0 = 0 ∧
    (mktinterval 42 43 INVALID_ABSTIME 0).data0 ≠ ABSTIMEMIN INVALID_ABSTIME 0 := by
  decide

/-- Claim C2, amended: `tintervalin` always stores start = min, end = max
under the sentinel-aware ordering with status INVAL iff either endpoint is
INVALID; `mktinterval` computes the same status, but stores the sorted
endpoints only in the VALID branch, leaving the allocation contents in place
in the INVAL branch; the stored pair always satisfies start ≤ end under the
sentinel-aware ordering. -/
theorem interval_construction_canonical (t1 t2 g0 g1 : Int) :
    ((tintervalin_mk t1 t2).status = T_INTERVAL_INVAL ↔
      t1 = INVALID_ABSTIME ∨ t2 = INVALID_ABSTIME) ∧
    (tintervalin_mk t1 t2).data0 = ABSTIMEMIN t1 t2 ∧
    (tintervalin_mk t1 t2).data1 = ABSTIMEMAX t1 t2 ∧
    (t1 ≠ INVALID_ABSTIME → t2 ≠ INVALID_ABSTIME →
      mktinterval g0 g1 t1 t2 =
        { status := T_INTERVAL_VALID, data0 := ABSTIMEMIN t1 t2,
          data1 := ABSTIMEMAX t1 t2 }) ∧
    ((t1 = INVALID_ABSTIME ∨ t2 = INVALID_ABSTIME) →
      (mktinterval g0 g1 t1 t2).status = T_INTERVAL_INVAL) ∧
    abstime_cmp_internal (ABSTIMEMIN t1 t2) (ABSTIMEMAX t1 t2) ≤ 0 := by
  refine ⟨?_, rfl, rfl, ?_, ?_, ?_⟩
  · unfold tintervalin_mk T_INTERVAL_INVAL T_INTERVAL_VALID
    split_ifs with h <;> simp [h]
  · intro h1 h2
    unfold mktinterval
    rw [if_neg]
    push_neg
    exact ⟨h1, h2⟩
  · intro h
    unfold mktinterval
    rw [if_pos h]
  · unfold ABSTIMEMIN ABSTIMEMAX abstime_cmp_internal
    split_ifs <;> omega

theorem interval_construction_canonical_witness :
    mktinterval 0 0 5 3 =
      { status := T_INTERVAL_VALID, data0 := ABSTIMEMIN 5 3, data1 := ABSTIMEMAX 5 3 } ∧
    (mktinterval 9 9 INVALID_ABSTIME 3).status = T_INTERVAL_INVAL ∧
    (tintervalin_mk INVALID_ABSTIME 3).status = T_INTERVAL_INVAL := by
  refine ⟨(interval_construction_canonical 5 3 0 0).2.2.2.1 (by decide) (by decide),
    (interval_construction_canonical INVALID_ABSTIME 3 9 9).2.2.2.2.1 (Or.inl rfl),
    (interval_construction_canonical INVALID_ABSTIME 3 9 9).1.mpr (Or.inl rfl)⟩

/-- Claim C3: `timepl` returns the exact integer sum when the absolute operand
is a real (non-sentinel) value, the relative operand is not the INVALID
sentinel and the exact sum lies strictly between the two infinity sentinels;
in every other case it returns INVALID, never a wrapped or clamped number.  In
particular adding 2 one second below the plus-infinity sentinel fails, and
5 + 3 = 8. -/
theorem timepl_boundary_guard (t1 t2 : Int) (h1 : Int32Range t1) (h2 : Int32Range t2) :
    (AbsoluteTimeIsReal t1 → t2 ≠ INVALID_RELTIME →
      NOSTART_ABSTIME < t1 + t2 → t1 + t2 < NOEND_ABSTIME → timepl t1 t2 = t1 + t2) ∧
    ((¬ AbsoluteTimeIsReal t1 ∨ t2 = INVALID_RELTIME ∨
      t1 + t2 ≤ NOSTART_ABSTIME ∨ NOEND_ABSTIME ≤ t1 + t2) →
      timepl t1 t2 = INVALID_ABSTIME) ∧
    timepl (NOEND_ABSTIME - 1) 2 = INVALID_ABSTIME ∧
    timepl 5 3 = 8 := by
  refine ⟨?_, ?_, by decide, by decide⟩ <;>
  · intro h
    unfold timepl AbsoluteTimeIsReal RelativeTimeIsValid NOEND_ABSTIME NOSTART_ABSTIME
      INVALID_ABSTIME INVALID_RELTIME at *
    split_ifs <;> omega

theorem timepl_boundary_guard_witness :
    timepl 5 3 = 8 ∧ timepl (NOEND_ABSTIME - 1) 2 = INVALID_ABSTIME := by
  exact ⟨(timepl_boundary_guard 5 3 (by decide) (by decide)).2.2.2,
    (timepl_boundary_guard 5 3 (by decide) (by decide)).2.2.1⟩

/-- Claim C9: subtraction mirrors addition — for every int32 pair with the
relative operand not INVALID, `timemi t1 t2 = timepl t1 (-t2)`, and
subtracting the INVALID sentinel yields INVALID for every absolute operand. -/
theorem timemi_mirrors_timepl (t1 t2 : Int) (h1 : Int32Range t1) (h2 : Int32Range t2) :
    (t2 ≠ INVALID_RELTIME → timemi t1 t2 = timepl t1 (-t2)) ∧
    timemi t1 INVALID_RELTIME = INVALID_ABSTIME := by
  constructor
  · intro h
    unfold timemi timepl AbsoluteTimeIsReal RelativeTimeIsValid NOEND_ABSTIME
      NOSTART_ABSTIME INVALID_ABSTIME INVALID_RELTIME at *
    split_ifs <;> omega
  · unfold timemi AbsoluteTimeIsReal RelativeTimeIsValid NOEND_ABSTIME
      NOSTART_ABSTIME INVALID_ABSTIME INVALID_RELTIME
    split_ifs <;> omega

theorem timemi_mirrors_timepl_witness :
    timemi 8 3 = timepl 8 (-3) ∧ timemi 8 INVALID_RELTIME = INVALID_ABSTIME := by
  exact ⟨(timemi_mirrors_timepl 8 3 (by decide) (by decide)).1 (by decide),
    (timemi_mirrors_timepl 8 3 (by decide) (by decide)).2⟩

/-- Claim C4: for two intervals that both have status VALID and no INVALID
endpoint, the three-way comparator returns the sign of comparing the 32-bit
wrapped lengths `data[1] - data[0]`, ignoring absolute position; an interval
with status INVAL or an INVALID endpoint compares equal (0) to any other such
interval and greater (1) than every non-invalid interval. -/
theorem tinterval_cmp_duration_only (a b : TimeIntervalData) :
    (tintervalInvalid a → tintervalInvalid b → tinterval_cmp_internal a b = 0) ∧
    (tintervalInvalid a → ¬ tintervalInvalid b → tinterval_cmp_internal a b = 1) ∧
    (¬ tintervalInvalid a → tintervalInvalid b → tinterval_cmp_internal a b = -1) ∧
    (a.status = T_INTERVAL_VALID → b.status = T_INTERVAL_VALID →
      a.data0 ≠ INVALID_ABSTIME → a.data1 ≠ INVALID_ABSTIME →
      b.data0 ≠ INVALID_ABSTIME → b.data1 ≠ INVALID_ABSTIME →
      tinterval_cmp_internal a b =
        threeCmp (wrap32 (a.data1 - a.data0)) (wrap32 (b.data1 - b.data0))) := by
  refine ⟨fun ha hb => ?_, fun ha hb => ?_, fun ha hb => ?_, ?_⟩
  · unfold tinterval_cmp_internal
    rw [if_pos ha, if_pos hb]
  · unfold tinterval_cmp_internal
    rw [if_pos ha, if_neg hb]
  · unfold tinterval_cmp_internal
    rw [if_neg ha, if_pos hb]
  · intro hs1 hs2 ha0 ha1 hb0 hb1
    have ha : ¬ tintervalInvalid a := by
      unfold tintervalInvalid T_INTERVAL_INVAL
      unfold T_INTERVAL_VALID at hs1
      push_neg
      exact ⟨by omega, ha0, ha1⟩
    have hb : ¬ tintervalInvalid b := by
      unfold tintervalInvalid T_INTERVAL_INVAL
      unfold T_INTERVAL_VALID at hs2
      push_neg
      exact ⟨by omega, hb0, hb1⟩
    unfold tinterval_cmp_internal threeCmp
    rw [if_neg ha, if_neg hb]

theorem tinterval_cmp_duration_only_witness :
    tinterval_cmp_internal ⟨1, 0, 100⟩ ⟨1, 500, 600⟩ = 0 ∧
    tinterval_cmp_internal ⟨1, -2147483648, 2147483645⟩ ⟨1, 100, 97⟩ = 0 ∧
    tinterval_cmp_internal ⟨0, 5, 6⟩ ⟨1, 0, 2147483647⟩ = 0 ∧
    tinterval_cmp_internal ⟨0, 1, 2⟩ ⟨1, 3, 4⟩ = 1 ∧
    tinterval_cmp_internal ⟨1, 3, 4⟩ ⟨0, 1, 2⟩ = -1 := by
  refine ⟨((tinterval_cmp_duration_only ⟨1, 0, 100⟩ ⟨1, 500, 600⟩).2.2.2
      (by decide) (by decide) (by decide) (by decide) (by decide) (by decide)).trans
      (by decide),
    ((tinterval_cmp_duration_only ⟨1, -2147483648, 2147483645⟩ ⟨1, 100, 97⟩).2.2.2
      (by decide) (by decide) (by decide) (by decide) (by decide) (by decide)).trans
      (by decide),
    (tinterval_cmp_duration_only ⟨0, 5, 6⟩ ⟨1, 0, 2147483647⟩).1
      (by decide) (by decide),
    (tinterval_cmp_duration_only ⟨0, 1, 2⟩ ⟨1, 3, 4⟩).2.1 (by decide) (by decide),
    (tinterval_cmp_duration_only ⟨1, 3, 4⟩ ⟨0, 1, 2⟩).2.2.1 (by decide) (by decide)⟩

/-- Claim C10: endpoint-wise identity `tintervalsame` is false whenever either
status is INVAL (including both INVAL), while the duration-based
`tintervaleq` reports two INVAL intervals as equal; for two VALID-status
intervals `tintervalsame` holds iff both corresponding endpoints are equal
under the sentinel-aware abstime equality. -/
theorem tintervalsame_excludes_invalid (i1 i2 : TimeIntervalData) :
    ((i1.status = T_INTERVAL_INVAL ∨ i2.status = T_INTERVAL_INVAL) →
      tintervalsame i1 i2 = false) ∧
    (i1.status = T_INTERVAL_VALID → i2.status = T_INTERVAL_VALID →
      (tintervalsame i1 i2 = true ↔
        abstime_cmp_internal i1.data0 i2.data0 = 0 ∧
        abstime_cmp_internal i1.data1 i2.data1 = 0)) ∧
    (i1.status = T_INTERVAL_INVAL → i2.status = T_INTERVAL_INVAL →
      tintervaleq i1 i2 = true) := by
  refine ⟨fun h => ?_, fun h1 h2 => ?_, fun h1 h2 => ?_⟩
  · unfold tintervalsame
    rw [if_pos h]
  · unfold tintervalsame
    rw [if_neg]
    · simp
    · unfold T_INTERVAL_VALID at h1 h2
      unfold T_INTERVAL_INVAL
      omega
  · unfold tintervaleq tinterval_cmp_internal
    rw [if_pos (Or.inl h1), if_pos (Or.inl h2)]
    rfl

theorem tintervalsame_excludes_invalid_witness :
    tintervalsame ⟨0, 5, 5⟩ ⟨0, 5, 5⟩ = false ∧
    tintervaleq ⟨0, 5, 5⟩ ⟨0, 7, 8⟩ = true ∧
    tintervalsame ⟨1, 3, 4⟩ ⟨1, 3, 4⟩ = true ∧
    tintervalsame ⟨1, 3, 4⟩ ⟨1, 3, 5⟩ = false := by
  refine ⟨(tintervalsame_excludes_invalid ⟨0, 5, 5⟩ ⟨0, 5, 5⟩).1 (Or.inl rfl),
    (tintervalsame_excludes_invalid ⟨0, 5, 5⟩ ⟨0, 7, 8⟩).2.2 rfl rfl,
    ((tintervalsame_excludes_invalid ⟨1, 3, 4⟩ ⟨1, 3, 4⟩).2.1 rfl rfl).mpr
      ⟨by decide, by decide⟩,
    ?_⟩
  have h := (tintervalsame_excludes_invalid ⟨1, 3, 4⟩ ⟨1, 3, 5⟩).2.1 rfl rfl
  have hne : ¬ (abstime_cmp_internal 3 3 = 0 ∧ abstime_cmp_internal 4 5 = 0) := by decide
  rcases hb : tintervalsame ⟨1, 3, 4⟩ ⟨1, 3, 5⟩ with _ | _
  · rfl
  · exact absurd (h.mp hb) hne

/-- Claim C6: binary decode of a tinterval recomputes the expected status from
the two transmitted endpoints — INVAL iff either equals the INVALID sentinel —
and fails exactly when the transmitted status differs from it; on success the
returned record carries exactly the three transmitted fields. -/
theorem tintervalrecv_status_check (s d0 d1 : Int) :
    (tintervalrecv s d0 d1 = none ↔ s ≠ tintervalExpectedStatus d0 d1) ∧
    (s = tintervalExpectedStatus d0 d1 →
      tintervalrecv s d0 d1 = some { status := s, data0 := d0, data1 := d1 }) ∧
    (tintervalExpectedStatus d0 d1 = T_INTERVAL_INVAL ↔
      d0 = INVALID_ABSTIME ∨ d1 = INVALID_ABSTIME) := by
  refine ⟨?_, fun h => ?_, ?_⟩
  · unfold tintervalrecv
    split_ifs with h
    · simp [Ne.symm h]
    · simp at h
      simp [h]
  · unfold tintervalrecv
    rw [if_neg (by omega)]
  · unfold tintervalExpectedStatus T_INTERVAL_INVAL T_INTERVAL_VALID
    split_ifs with h <;> simp [h]

theorem tintervalrecv_status_check_witness :
    tintervalrecv T_INTERVAL_VALID INVALID_ABSTIME 0 = none ∧
    tintervalrecv T_INTERVAL_VALID 3 4 =
      some { status := T_INTERVAL_VALID, data0 := 3, data1 := 4 } ∧
    tintervalrecv T_INTERVAL_INVAL 3 4 = none := by
  refine ⟨(tintervalrecv_status_check T_INTERVAL_VALID INVALID_ABSTIME 0).1.mpr
      (by decide),
    (tintervalrecv_status_check T_INTERVAL_VALID 3 4).2.1 (by decide),
    (tintervalrecv_status_check T_INTERVAL_INVAL 3 4).1.mpr (by decide)⟩

/-- The spec-side flattening of a higher-precision duration into whole
seconds, written with the spec's own constants: 1 year = 365.25 × 86400 s and
1 month = 30 × 86400 s, scaled through microseconds and truncated. -/
def specFlattenUsecs (iv : PgInterval) : Int :=
  31557600000000 * (iv.month.tdiv 12) + 2592000000000 * (iv.month.tmod 12)
    + 86400000000 * iv.day + iv.time

/-- Whole seconds of the spec-side flattening. -/
def specFlattenSeconds (iv : PgInterval) : Int :=
  (specFlattenUsecs iv).tdiv 1000000

theorem intervalSpan_eq_specFlatten (iv : PgInterval) :
    intervalSpanUsecs iv = specFlattenUsecs iv := by
  unfold intervalSpanUsecs specFlattenUsecs
  ring

/-- Claim C7: `interval_reltime` flattens the interval into total seconds with
the constants 1 year = 365.25 × 86400 s and 1 month = 30 × 86400 s and
silently returns the INVALID sentinel when the flattened value lies outside
the signed 32-bit range; `reltime_interval` errors exactly on the INVALID
sentinel and otherwise returns the decomposition by truncating division with
those same constants (no out-of-range failure exists in that direction). -/
theorem reltime_interval_conversion_policy (iv : PgInterval) (r : Int) :
    ((specFlattenSeconds iv < -2147483648 ∨ specFlattenSeconds iv > 2147483647) →
      interval_reltime iv = INVALID_RELTIME) ∧
    (-2147483648 ≤ specFlattenSeconds iv → specFlattenSeconds iv ≤ 2147483647 →
      interval_reltime iv = specFlattenSeconds iv) ∧
    reltime_interval INVALID_RELTIME = none ∧
    (r ≠ INVALID_RELTIME →
      reltime_interval r = some
        { time := ((r.tmod 31557600).tmod 2592000).tmod 86400 * 1000000
          day := ((r.tmod 31557600).tmod 2592000).tdiv 86400
          month := 12 * r.tdiv 31557600 + (r.tmod 31557600).tdiv 2592000 }) := by
  have hspan : (intervalSpanUsecs iv).tdiv 1000000 = specFlattenSeconds iv := by
    rw [intervalSpan_eq_specFlatten]
    rfl
  refine ⟨fun h => ?_, fun hlo hhi => ?_, ?_, fun h => ?_⟩
  · unfold interval_reltime
    simp only [hspan]
    rw [if_pos h]
  · unfold interval_reltime
    simp only [hspan]
    rw [if_neg (by omega)]
  · unfold reltime_interval
    rw [if_pos rfl]
  · have key : ∀ a b : Int, a - a.tdiv b * b = a.tmod b := fun a b => by
      rw [Int.tmod_def]
      ring
    unfold reltime_interval
    rw [if_neg h]
    simp only [key]

theorem reltime_interval_conversion_policy_witness :
    interval_reltime ⟨500000, 2, 14⟩ = 36914400 ∧
    interval_reltime ⟨0, 0, 1000⟩ = INVALID_RELTIME ∧
    reltime_interval INVALID_RELTIME = none ∧
    reltime_interval 100000000 = some { time := 56800000000, day := 1, month := 38 } := by
  refine ⟨((reltime_interval_conversion_policy ⟨500000, 2, 14⟩ 0).2.1
      (by decide) (by decide)).trans (by decide),
    (reltime_interval_conversion_policy ⟨0, 0, 1000⟩ 0).1 (by decide),
    (reltime_interval_conversion_policy ⟨0, 0, 0⟩ 0).2.2.1,
    ((reltime_interval_conversion_policy ⟨0, 0, 0⟩ 100000000).2.2.2
      (by decide)).trans (by decide)⟩

/-- Claim C8: for every int32 value the binary decode of the binary encode
returns the value unchanged, and for every real (non-sentinel) AbsoluteTime
the text decode of the text rendering returns the value, under the assumed
bit-exact external calendar decomposition and date/time scanner expressed by
`ScanRecovers`; a real value is rendered through the calendar renderer, not a
sentinel literal. -/
theorem abstime_codec_roundtrip (date2j : Int → Int → Int → Int)
    (scan : String → AbstimeScan) (render : Int → String) (t x : Int)
    (ht : Int32Range t) (hx : AbsoluteTimeIsReal x)
    (hscan : ScanRecovers date2j scan (abstimeout render x) x) :
    abstimerecv (abstimesend t) = some t ∧
    abstimeout render x = render x ∧
    abstimein date2j scan (abstimeout render x) = some x := by
  refine ⟨?_, ?_, ?_⟩
  · simp only [abstimesend, abstimerecv, Option.some.injEq]
    split <;> omega
  · unfold abstimeout AbsoluteTimeIsReal NOSTART_ABSTIME NOEND_ABSTIME at *
    rw [if_neg (by unfold INVALID_ABSTIME; omega), if_neg (by omega), if_neg (by omega)]
  · unfold abstimein
    unfold ScanRecovers at hscan
    revert hscan
    cases scan (abstimeout render x) <;> intro hscan <;> simp_all

theorem abstime_codec_roundtrip_witness :
    abstimerecv (abstimesend (-12345)) = some (-12345) ∧
    abstimeout (fun _ => "render") 42 = "render" ∧
    abstimein (fun _ _ _ => 2440588)
      (fun _ => AbstimeScan.date ⟨1970, 1, 1, 0, 0, 42⟩ 0)
      (abstimeout (fun _ => "render") 42) = some 42 := by
  exact abstime_codec_roundtrip (fun _ _ _ => 2440588)
    (fun _ => AbstimeScan.date ⟨1970, 1, 1, 0, 0, 42⟩ 0) (fun _ => "render")
    (-12345) 42 (by decide) (by decide) (by decide)

/-- Claim C1 as stated is false: with an abstime oracle that accepts every
string, the canonical undefined-range literals are rejected by the parser
(`goto bogus`), so `tintervalin` reports a syntax error instead of returning
an INVAL interval. -/
theorem tintervalin_undefined_range_cex :
    tintervalin (fun _ => some 0) ("[\"Undefined Range\"]".toList) = none ∧
    tintervalin (fun _ => some 0) ("Undefined Range".toList) = none := by
  decide

/-- Claim C1, amended: the fixed, case-sensitive literal `Undefined Range`
appearing where the first quoted segment is expected is handled like a syntax
error — `parsetinterval` and `tintervalin` fail on any such input, for every
behaviour of the embedded abstime decoder, and the bare literal already fails
at the opening bracket; no INVAL interval is ever produced this way. -/
theorem parsetinterval_undefined_range_rejected
    (absin : List Char → Option Int) (rest : List Char) :
    parsetinterval absin ('[' :: '"' :: ("Undefined Range".toList ++ rest)) = none ∧
    tintervalin absin ('[' :: '"' :: ("Undefined Range".toList ++ rest)) = none ∧
    parsetinterval absin ("Undefined Range".toList) = none := by
  have hpre : ∀ (p r : List Char), startsWithChars p (p ++ r) = true := by
    intro p
    induction p with
    | nil => intro r; rfl
    | cons c cs ih => intro r; simp [startsWithChars, ih]
  have e1 : skipTo '[' ('[' :: '"' :: ("Undefined Range".toList ++ rest)) =
      some ('"' :: ("Undefined Range".toList ++ rest)) := rfl
  have e2 : skipTo '"' ('"' :: ("Undefined Range".toList ++ rest)) =
      some ("Undefined Range".toList ++ rest) := rfl
  have h1 : parsetinterval absin ('[' :: '"' :: ("Undefined Range".toList ++ rest)) = none := by
    unfold parsetinterval
    simp only [e1, e2, hpre, if_true]
  refine ⟨h1, ?_, rfl⟩
  unfold tintervalin
  rw [h1]

theorem parsetinterval_undefined_range_rejected_witness :
    parsetinterval (fun _ => some 1)
      ('[' :: '"' :: ("Undefined Range".toList ++ ['"', ']'])) = none ∧
    tintervalin (fun _ => some 1)
      ('[' :: '"' :: ("Undefined Range".toList ++ ['"', ']'])) = none ∧
    parsetinterval (fun _ => some 1) ("Undefined Range".toList) = none :=
  parsetinterval_undefined_range_rejected (fun _ => some 1) ['"', ']']
